import Mathlib

/-!
Verification of the Okta SAML authentication flow (`okta.go`) of saml2aws.

The Go program drives a sequence of HTTP round trips: credential POST,
optional MFA verification (SMS / TOTP / Duo web with a push-poll loop),
a callback, and final SAML-assertion extraction from an HTML response.

Shallow embedding: HTTP traffic is modelled by a scripted tape of
responses consumed in order by `clientDo`; the two interactive prompts
are functions supplied by the environment; every observable action
(request issued, sleep, prompt, console print) is recorded in an event
trace.  JSON bodies are modelled by the inductive `Json` together with a
`gjson`-style path lookup; HTML documents are modelled by their list of
`<input name=... value=...>` pairs, which is the only way the program
inspects them.  `errors.Wrap` of the `pkg/errors` library is modelled
faithfully: wrapping a `nil` error yields `nil`.
-/

/-- Go `error` values are modelled by their message string. -/
abbrev GoError := String

/-- `errors.Wrap` from pkg/errors: returns nil when the wrapped error is nil,
otherwise annotates the cause with the message. -/
def errWrap (e : Option GoError) (msg : String) : Option GoError :=
  match e with
  | Option.none => Option.none
  | some cause => some (msg ++ ": " ++ cause)

/-- JSON values as consumed by the program (only null, strings, arrays and
objects are ever produced or inspected by the modelled responses). -/
inductive Json where
  | null : Json
  | str (s : String) : Json
  | arr (elts : List Json) : Json
  | obj (fields : List (String × Json)) : Json

/-- Split a list of characters at every occurrence of `sep`, keeping empty
segments; result is never empty.  Models Go `strings.Split` with a
one-character separator (the only separators the program uses: `":"` for the
Duo signature and `"."` inside gjson path lookup). -/
def splitChar (sep : Char) : List Char → List (List Char)
  | [] => [[]]
  | c :: cs =>
    let r := splitChar sep cs
    if c = sep then [] :: r
    else
      match r with
      | [] => [[c]]
      | h :: t => (c :: h) :: t

/-- Go `strings.Split s sep` for a one-character separator. -/
def goSplit (s : String) (sep : Char) : List String :=
  (splitChar sep s.data).map (fun l => String.mk l)

/-- Decimal decoding of a digit list (the accumulator loop of
`String.toNat?`). -/
def decDigits (l : List Char) : Nat :=
  l.foldl (fun n c => n * 10 + (c.toNat - Char.toNat '0')) 0

/-- `String.toNat?` re-stated over the character list (same semantics:
`some` exactly for a non-empty all-digit string). -/
def goToNat? (s : String) : Option Nat :=
  if s.data ≠ [] ∧ s.data.all Char.isDigit then some (decDigits s.data)
  else Option.none

/-- List indexing returning `Option` (Go's slice indexing, where `none`
corresponds to an index-out-of-range runtime panic). -/
def goIndex : List α → Nat → Option α
  | [], _ => Option.none
  | a :: _, 0 => some a
  | _ :: as, n + 1 => goIndex as n

/-- One step of a gjson path: field lookup on objects, numeric index on
arrays, null otherwise. -/
def gjsonStep (j : Json) (key : String) : Json :=
  match j with
  | .obj fields =>
    match fields.find? (fun p => p.1 == key) with
    | some p => p.2
    | Option.none => .null
  | .arr elts =>
    match goToNat? key with
    | some n => (goIndex elts n).getD .null
    | Option.none => .null
  | _ => .null

/-- `gjson.Get`: walk the dot-separated path through the value. -/
def gjsonGet (j : Json) (path : String) : Json :=
  (goSplit path '.').foldl gjsonStep j

/-- `Result.String()` of gjson for the values this program reads: the string
itself for JSON strings, `""` for missing/non-string values. -/
def jString : Json → String
  | .str s => s
  | _ => ""

/-- `Result.Array()` of gjson: `[]` for a missing value, the elements for an
array, a one-element list otherwise. -/
def jArray : Json → List Json
  | .null => []
  | .arr elts => elts
  | j => [j]

/-- Go `strings.ToUpper` (ASCII, sufficient for the identifiers involved). -/
def goToUpper (s : String) : String := String.mk (s.data.map Char.toUpper)

/-- Left-to-right single-pass entity replacement over the character list. -/
def htmlUnescapeList : List Char → List Char
  | '&' :: 'a' :: 'm' :: 'p' :: ';' :: rest => '&' :: htmlUnescapeList rest
  | '&' :: 'l' :: 't' :: ';' :: rest => '<' :: htmlUnescapeList rest
  | '&' :: 'g' :: 't' :: ';' :: rest => '>' :: htmlUnescapeList rest
  | '&' :: 'q' :: 'u' :: 'o' :: 't' :: ';' :: rest =>
    '"' :: htmlUnescapeList rest
  | '&' :: '#' :: '3' :: '9' :: ';' :: rest => '\x27' :: htmlUnescapeList rest
  | c :: rest => c :: htmlUnescapeList rest
  | [] => []

/-- Go `html.UnescapeString`, restricted to the basic named entities; the
program applies it to the Duo `sid` value only. -/
def htmlUnescapeString (s : String) : String :=
  String.mk (htmlUnescapeList s.data)

/-- okta.go line 26. -/
def IdentifierDuoMfa : String := "DUO WEB"

/-- okta.go line 27. -/
def IdentifierSmsMfa : String := "OKTA SMS"

/-- okta.go line 28. -/
def IdentifierTotpMfa : String := "GOOGLE TOKEN:SOFTWARE:TOTP"

/-- okta.go lines 31-37: the supported-MFA table, as an association list. -/
def supportedMfaOptions : List (String × String) :=
  [(IdentifierDuoMfa, "DUO MFA authentication"),
   (IdentifierSmsMfa, "SMS MFA authentication"),
   (IdentifierTotpMfa, "TOTP MFA authentication")]

/-- Go map lookup `supportedMfaOptions[identifier]`. -/
def lookupMfa (identifier : String) : Option String :=
  (supportedMfaOptions.find? (fun p => p.1 == identifier)).map (fun p => p.2)

/-- Association-list lookup used for form fields (first binding wins, like
`url.Values.Get`). -/
def lookupField (fields : List (String × String)) (key : String) :
    Option String :=
  (fields.find? (fun p => p.1 == key)).map (fun p => p.2)

/-- Request bodies, following the shapes the program constructs:
`AuthRequest` / `VerifyRequest` JSON structs, url-encoded forms, or empty. -/
inductive ReqBody where
  | authJson (username password : String) : ReqBody
  | verifyJson (stateToken : String) (passCode : Option String) : ReqBody
  | form (fields : List (String × String)) : ReqBody
  | noBody : ReqBody
deriving DecidableEq, Repr

/-- Observable actions of one authentication attempt, in order. -/
inductive Event where
  | req (method url : String) (body : ReqBody)
      (query : List (String × String)) : Event
  | sleep : Event
  | chooseEv (promptMsg : String) (options : List String) : Event
  | promptEv (promptMsg : String) : Event
  | printEv (s : String) : Event
deriving DecidableEq, Repr

/-- A response body: JSON (read through gjson) or an HTML document, the
latter modelled by its named-input/value pairs (the only thing goquery is
used for). -/
inductive RespBody where
  | jsonBody (j : Json) : RespBody
  | htmlBody (inputs : List (String × String)) : RespBody

/-- One scripted network outcome: a response, or a transport error from
`client.Do`. -/
inductive NetResult where
  | ok (b : RespBody) : NetResult
  | fail (msg : String) : NetResult

/-- `ioutil.ReadAll` + `gjson` view of a body: HTML text yields no JSON
fields. -/
def respJson : RespBody → Json
  | .jsonBody j => j
  | .htmlBody _ => .null

/-- `goquery.NewDocumentFromResponse` view of a body: a JSON body parses as a
document with no input elements. -/
def respInputs : RespBody → List (String × String)
  | .jsonBody _ => []
  | .htmlBody inputs => inputs

/-- `doc.Find("input[name=...]").Attr("value")`: first matching input. -/
def findInputValue (inputs : List (String × String)) (name : String) :
    Option String :=
  lookupField inputs name

/-- okta.go lines 79-80 input: credentials for one attempt. -/
structure LoginDetails where
  Username : String
  Password : String
  Hostname : String

/-- The environment of one attempt: credentials, the scripted tape of
network responses, and the two interactive collaborators
(`prompt.Choose` and `prompt.StringRequired`). -/
structure Env where
  loginDetails : LoginDetails
  responses : List NetResult
  choose : String → List String → Nat
  stringRequired : String → String

/-- Mutable execution state: the unconsumed response tape and the event
trace so far (chronological order). -/
structure St where
  tape : List NetResult
  events : List Event

/-- Append one event to the trace. -/
def emit (st : St) (e : Event) : St :=
  ⟨st.tape, st.events ++ [e]⟩

/-- `oc.client.Do(req)` (preceded by `http.NewRequest`, which never fails on
the well-formed URLs the program builds): record the request, consume the
next scripted response; an exhausted tape is a transport error. -/
def clientDo (st : St) (method url : String) (body : ReqBody)
    (query : List (String × String)) : St × Except GoError RespBody :=
  let st1 := emit st (.req method url body query)
  match st1.tape with
  | [] => (st1, .error "network error")
  | .ok b :: rest => (⟨rest, st1.events⟩, .ok b)
  | .fail msg :: rest => (⟨rest, st1.events⟩, .error msg)

/-- Result of one `Authenticate` call: the returned
`(samlAssertion, error)` pair, or a Go runtime panic (out-of-range slice
index). -/
inductive Outcome where
  | ret (samlAssertion : String) (err : Option GoError) : Outcome
  | panicked (msg : String) : Outcome
deriving DecidableEq, Repr

/-- okta.go lines 416-420: identifier of the factor at `arrayPosition`;
note only the factor type is upper-cased. -/
def parseMfaIdentifer (json : Json) (arrayPosition : Nat) : String :=
  let mfaProvider :=
    jString (gjsonGet json
      ("_embedded.factors." ++ Nat.repr arrayPosition ++ ".provider"))
  let factorType :=
    goToUpper (jString (gjsonGet json
      ("_embedded.factors." ++ Nat.repr arrayPosition ++ ".factorType")))
  mfaProvider ++ " " ++ factorType

/-- okta.go lines 116-124: the label list built from the factor array
(supported label from the table, otherwise the UNSUPPORTED placeholder). -/
def mfaOptionsOf (resp : Json) : List String :=
  (List.range (jArray (gjsonGet resp "_embedded.factors")).length).map
    (fun i =>
      let identifier := parseMfaIdentifer resp i
      match lookupMfa identifier with
      | some val => val
      | Option.none => "UNSUPPORTED: " ++ identifier)

/-- Outcome of the Duo push poll loop (okta.go lines 306-336): the cookie on
`"SUCCESS"`, or an early `return` from `Authenticate` with the given error
value. -/
inductive PollResult where
  | success (cookie : String) : PollResult
  | earlyRet (err : Option GoError) : PollResult
deriving DecidableEq, Repr

/-- okta.go lines 306-336, recursion over the remaining tape: sleep,
re-POST the same {sid, txid} form to `/frame/status`, print
`response.status`, stop on `"FAILURE"` (note: the wrapped `err` there is
the nil error of the preceding successful body read) or `"SUCCESS"`,
otherwise poll again.  `clientDo` is inlined (tape and events threaded
directly) so the recursion is structural in the tape. -/
def pollLoopGo (url : String) (form : List (String × String)) :
    List NetResult → List Event → PollResult × St
  | tape, evs =>
    let evs1 := evs ++ [Event.sleep, Event.req "POST" url (.form form) []]
    match tape with
    | [] =>
      (.earlyRet (errWrap (some "network error")
        "error retrieving verify response"), ⟨[], evs1⟩)
    | .fail msg :: rest =>
      (.earlyRet (errWrap (some msg) "error retrieving verify response"),
       ⟨rest, evs1⟩)
    | .ok b :: rest =>
      let resp := respJson b
      let duoTxResult := jString (gjsonGet resp "response.result")
      let duoTxCookie := jString (gjsonGet resp "response.cookie")
      let evs2 := evs1 ++ [Event.printEv (jString (gjsonGet resp
        "response.status"))]
      if duoTxResult = "FAILURE" then
        (.earlyRet (errWrap Option.none "failed to authenticate device"),
         ⟨rest, evs2⟩)
      else if duoTxResult = "SUCCESS" then
        (.success duoTxCookie, ⟨rest, evs2⟩)
      else
        pollLoopGo url form rest evs2

/-- The poll loop entered from the current execution state. -/
def pollLoop (duoSubmitURL : String) (duoForm : List (String × String))
    (st : St) : PollResult × St :=
  pollLoopGo duoSubmitURL duoForm st.tape st.events

/-- Result of one MFA verification branch: fall through to session-token
extraction with the new current response body, or an early return. -/
inductive BranchOut where
  | next (resp : Json) : BranchOut
  | done (o : Outcome) : BranchOut

/-- okta.go lines 181-379: the Duo web sub-protocol.  `resp` is the body of
the first verify call, from which host / signature / callback are read; the
signature is split on `":"`; element 0 is the `tx` query parameter, element 1
the application signature of the final `sig_response`.  Out-of-range slice
indexing is a Go runtime panic. -/
def duoBranch (env : Env) (st : St) (resp : Json)
    (oktaOrgHost stateToken factorID oktaVerify : String) : BranchOut × St :=
  let duoHost :=
    jString (gjsonGet resp "_embedded.factor._embedded.verification.host")
  let duoSignature :=
    jString (gjsonGet resp "_embedded.factor._embedded.verification.signature")
  let duoSiguatres := goSplit duoSignature ':'
  let duoCallback :=
    jString (gjsonGet resp
      "_embedded.factor._embedded.verification._links.complete.href")
  let duoSubmitURL := "https://" ++ duoHost ++ "/frame/web/v1/auth"
  let duoForm : List (String × String) :=
    [("parent", "https://" ++ oktaOrgHost ++ "/signin/verify/duo/web"),
     ("java_version", ""), ("java_version", ""), ("flash_version", ""),
     ("screen_resolution_width", "3008"),
     ("screen_resolution_height", "1692"), ("color_depth", "24")]
  match goIndex duoSiguatres 0 with
  | Option.none => (.done (.panicked "runtime error: index out of range"), st)
  | some tx =>
    match clientDo st "POST" duoSubmitURL (.form duoForm) [("tx", tx)] with
    | (st1, .error e) =>
      (.done (.ret "" (errWrap (some e) "error retrieving verify response")),
       st1)
    | (st1, .ok b1) =>
      -- goquery parse of the auth frame; `err` is nil from here on.
      match findInputValue (respInputs b1) "sid" with
      | Option.none =>
        (.done (.ret "" (errWrap Option.none "unable to locate saml response")),
         st1)
      | some sidRaw =>
        let duoSID := htmlUnescapeString sidRaw
        let duoMfaOptions : List String := ["Passcode", "Duo Push"]
        let duoMfaOption := env.choose "Select a DUO MFA Option" duoMfaOptions
        let st2 := emit st1 (.chooseEv "Select a DUO MFA Option" duoMfaOptions)
        match goIndex duoMfaOptions duoMfaOption with
        | Option.none =>
          (.done (.panicked "runtime error: index out of range"), st2)
        | some factorChoice =>
          let (token, st3) :=
            if factorChoice = "Passcode" then
              (env.stringRequired "Enter passcode",
               emit st2 (.promptEv "Enter passcode"))
            else ("", st2)
          let duoPromptURL := "https://" ++ duoHost ++ "/frame/prompt"
          let duoForm2 : List (String × String) :=
            [("sid", duoSID), ("device", "phone1"),
             ("factor", factorChoice), ("out_of_date", "false")] ++
            (if factorChoice = "Passcode" then [("passcode", token)] else [])
          match clientDo st3 "POST" duoPromptURL (.form duoForm2) [] with
          | (st4, .error e) =>
            (.done (.ret ""
               (errWrap (some e) "error retrieving verify response")), st4)
          | (st4, .ok b2) =>
            let resp2 := respJson b2
            let duoTxStat := jString (gjsonGet resp2 "stat")
            let duoTxID := jString (gjsonGet resp2 "response.txid")
            if duoTxStat ≠ "OK" then
              -- err here is the nil error of the successful body read.
              (.done (.ret ""
                 (errWrap Option.none "error authenticating mfa device")), st4)
            else
              let duoStatusURL := "https://" ++ duoHost ++ "/frame/status"
              let duoForm3 : List (String × String) :=
                [("sid", duoSID), ("txid", duoTxID)]
              match clientDo st4 "POST" duoStatusURL (.form duoForm3) [] with
              | (st5, .error e) =>
                (.done (.ret ""
                   (errWrap (some e) "error retrieving verify response")), st5)
              | (st5, .ok b3) =>
                let resp3 := respJson b3
                let duoTxResult := jString (gjsonGet resp3 "response.result")
                let duoTxCookie := jString (gjsonGet resp3 "response.cookie")
                let st6 :=
                  emit st5
                    (.printEv (jString (gjsonGet resp3 "response.status")))
                let pollOut : PollResult × St :=
                  if duoTxResult ≠ "SUCCESS" then
                    pollLoop duoStatusURL duoForm3 st6
                  else (.success duoTxCookie, st6)
                match pollOut with
                | (.earlyRet err, st7) => (.done (.ret "" err), st7)
                | (.success cookie, st7) =>
                  match goIndex duoSiguatres 1 with
                  | Option.none =>
                    (.done (.panicked "runtime error: index out of range"),
                     st7)
                  | some appSig =>
                    let oktaForm : List (String × String) :=
                      [("id", factorID), ("stateToken", stateToken),
                       ("sig_response", cookie ++ ":" ++ appSig)]
                    match clientDo st7 "POST" duoCallback (.form oktaForm) []
                      with
                    | (st8, .error e) =>
                      (.done (.ret "" (errWrap (some e)
                         "error retrieving verify response")), st8)
                    | (st8, .ok _) =>
                      -- the callback response body is never read
                      match clientDo st8 "POST" oktaVerify
                          (.verifyJson stateToken Option.none) [] with
                      | (st9, .error e) =>
                        (.done (.ret "" (errWrap (some e)
                           "error retrieving verify response")), st9)
                      | (st9, .ok b4) => (.next (respJson b4), st9)

/-- okta.go lines 133-379: the part of `Authenticate` from the supported-set
check on the chosen identifier (line 133) to the end of the MFA branch:
reject an unsupported identifier (note: `errors.Wrap` is applied to the nil
error of the successful body read, okta.go line 134), otherwise issue the
first verify call with the state token only and dispatch on the identifier
(SMS / TOTP passcode round or the Duo sub-protocol). -/
def mfaVerify (env : Env) (st : St)
    (oktaOrgHost stateToken factorID oktaVerify mfaIdentifer : String) :
    BranchOut × St :=
  match lookupMfa mfaIdentifer with
  | Option.none =>
    (.done (.ret "" (errWrap Option.none "unsupported mfa provider")), st)
  | some _ =>
    match clientDo st "POST" oktaVerify
        (.verifyJson stateToken Option.none) [] with
    | (st3, .error e) =>
      (.done (.ret "" (errWrap (some e) "error retrieving verify response")),
       st3)
    | (st3, .ok b2) =>
      let resp2 := respJson b2
      if mfaIdentifer = IdentifierSmsMfa ∨
          mfaIdentifer = IdentifierTotpMfa then
        let verifyCode := env.stringRequired "Enter verification code"
        let stP := emit st3 (.promptEv "Enter verification code")
        match clientDo stP "POST" oktaVerify
            (.verifyJson stateToken (some verifyCode)) [] with
        | (st4, .error e) =>
          (.done (.ret ""
             (errWrap (some e) "error retrieving token post response")), st4)
        | (st4, .ok b3) => (.next (respJson b3), st4)
      else if mfaIdentifer = IdentifierDuoMfa then
        duoBranch env st3 resp2 oktaOrgHost stateToken factorID oktaVerify
      else
        -- no switch case matches: fall through with the first verify
        -- response as the current body (unreachable: the identifier is in
        -- the supported table)
        (.next resp2, st3)

/-- okta.go lines 382-413: read `sessionToken` from the current response
body, GET the session-cookie-redirect endpoint, scrape the hidden
`SAMLResponse` input (absence returns the nil-wrapped error of the
successful goquery parse). -/
def sessionExchange (env : Env) (st : St) (resp : Json) : Outcome × St :=
  let oktaSessionToken := jString (gjsonGet resp "sessionToken")
  let url :=
    "https://" ++ env.loginDetails.Hostname ++ "/login/sessionCookieRedirect"
  let q : List (String × String) :=
    [("checkAccountSetupComplete", "true"), ("token", oktaSessionToken),
     ("redirectUrl", "https://" ++ env.loginDetails.Hostname)]
  match clientDo st "GET" url .noBody q with
  | (st1, .error e) =>
    (.ret "" (errWrap (some e) "error retrieving verify response"), st1)
  | (st1, .ok b) =>
    match findInputValue (respInputs b) "SAMLResponse" with
    | Option.none =>
      (.ret "" (errWrap Option.none "unable to locate saml response"), st1)
    | some v => (.ret v Option.none, st1)

/-- Continuation after an MFA branch: an early `return`, or falling through
to okta.go line 382 with the branch's final response body. -/
def afterBranch (env : Env) : BranchOut × St → Outcome × St
  | (.done o, st4) => (o, st4)
  | (.next respF, st4) => sessionExchange env st4 respF

/-- okta.go lines 79-414: the whole `Authenticate` flow over a scripted
environment. -/
def authenticate (env : Env) : Outcome × St :=
  let st0 : St := ⟨env.responses, []⟩
  let oktaOrgHost := env.loginDetails.Hostname
  match clientDo st0 "POST" ("https://" ++ oktaOrgHost ++ "/api/v1/authn")
      (.authJson env.loginDetails.Username env.loginDetails.Password) [] with
  | (st1, .error e) =>
    (.ret "" (errWrap (some e) "error retrieving auth response"), st1)
  | (st1, .ok b) =>
    let resp := respJson b
    let stateToken := jString (gjsonGet resp "stateToken")
    let authStatus := jString (gjsonGet resp "status")
    if authStatus = "MFA_REQUIRED" then
      let mfaOptions := mfaOptionsOf resp
      let (mfaOption, st2) :=
        if mfaOptions.length > 1 then
          (env.choose "Select which MFA option to use" mfaOptions,
           emit st1 (.chooseEv "Select which MFA option to use" mfaOptions))
        else ((0 : Nat), st1)
      let factorID :=
        jString (gjsonGet resp
          ("_embedded.factors." ++ Nat.repr mfaOption ++ ".id"))
      let oktaVerify :=
        jString (gjsonGet resp
          ("_embedded.factors." ++ Nat.repr mfaOption ++ "._links.verify.href"))
      let mfaIdentifer := parseMfaIdentifer resp mfaOption
      afterBranch env
        (mfaVerify env st2 oktaOrgHost stateToken factorID oktaVerify
          mfaIdentifer)
    else
      sessionExchange env st1 resp

/-! ## Response builders for the scripted scenarios -/

/-- A factor entry of the `_embedded.factors` array, as the identity
provider returns it. -/
def mkFactor (id provider factorType href : String) : Json :=
  .obj [("id", .str id), ("provider", .str provider),
        ("factorType", .str factorType),
        ("_links", .obj [("verify", .obj [("href", .str href)])])]

/-- An `MFA_REQUIRED` authentication response carrying a factor list. -/
def mkMfaResp (stateToken : String) (factors : List Json) : Json :=
  .obj [("stateToken", .str stateToken), ("status", .str "MFA_REQUIRED"),
        ("_embedded", .obj [("factors", .arr factors)])]

/-- A non-MFA authentication (or verify) response carrying a session
token. -/
def mkSessionResp (status tok : String) : Json :=
  .obj [("status", .str status), ("sessionToken", .str tok)]

/-- The first verify response of the Duo branch: relay host, colon-joined
signature, completion callback URL. -/
def mkDuoVerifyResp (host signature callback : String) : Json :=
  .obj [("_embedded", .obj [("factor", .obj [("_embedded",
    .obj [("verification",
      .obj [("host", .str host), ("signature", .str signature),
            ("_links", .obj [("complete", .obj [("href", .str callback)])])
           ])])])])]

/-- A Duo `/frame/prompt` JSON response. -/
def mkPromptResp (stat txid : String) : Json :=
  .obj [("stat", .str stat), ("response", .obj [("txid", .str txid)])]

/-- A Duo `/frame/status` JSON response. -/
def mkStatusResp (result cookie status : String) : Json :=
  .obj [("response", .obj [("result", .str result), ("cookie", .str cookie),
        ("status", .str status)])]

/-- Credentials used by the concrete scenario environments. -/
def testCreds : LoginDetails := ⟨"user", "pw", "example.okta.com"⟩

/-! ## Small trace lemmas -/

theorem emit_events (st : St) (e : Event) :
    (emit st e).events = st.events ++ [e] := rfl

theorem emit_tape (st : St) (e : Event) : (emit st e).tape = st.tape := rfl

theorem clientDo_fst_events (st : St) (m u : String) (b : ReqBody)
    (q : List (String × String)) :
    (clientDo st m u b q).1.events = st.events ++ [Event.req m u b q] := by
  rcases st with ⟨tape, evs⟩
  cases tape with
  | nil => rfl
  | cons r t => cases r <;> rfl

theorem sessionExchange_snd (env : Env) (st : St) (resp : Json) :
    (sessionExchange env st resp).2 =
      (clientDo st "GET"
        ("https://" ++ env.loginDetails.Hostname ++
          "/login/sessionCookieRedirect") ReqBody.noBody
        [("checkAccountSetupComplete", "true"),
         ("token", jString (gjsonGet resp "sessionToken")),
         ("redirectUrl", "https://" ++ env.loginDetails.Hostname)]).1 := by
  unfold sessionExchange
  dsimp only
  split <;> (try split) <;> simp_all

/-- Events of the session-token exchange: exactly one redirect GET is
appended, whatever the response. -/
theorem sessionExchange_events (env : Env) (st : St) (resp : Json) :
    (sessionExchange env st resp).2.events = st.events ++
      [Event.req "GET"
        ("https://" ++ env.loginDetails.Hostname ++
          "/login/sessionCookieRedirect") ReqBody.noBody
        [("checkAccountSetupComplete", "true"),
         ("token", jString (gjsonGet resp "sessionToken")),
         ("redirectUrl", "https://" ++ env.loginDetails.Hostname)]] := by
  rw [sessionExchange_snd, clientDo_fst_events]

/-! ## Scenario environments -/

/-- Scenario A of the spec: non-MFA success then redirect HTML carrying the
assertion. -/
def envA : Env :=
  ⟨testCreds,
   [.ok (.jsonBody (mkSessionResp "SUCCESS" "tok1")),
    .ok (.htmlBody [("SAMLResponse", "YXNzZXJ0aW9u")])],
   fun _ _ => 0, fun _ => ""⟩

/-- Scenario C of the spec: sole factor with unsupported identifier
`"UNKNOWN CUSTOM"`. -/
def envC : Env :=
  ⟨testCreds,
   [.ok (.jsonBody (mkMfaResp "st1"
      [mkFactor "f1" "UNKNOWN" "custom" "https://x/verify"]))],
   fun _ _ => 0, fun _ => ""⟩

/-- Scenario A with the redirect HTML missing the `SAMLResponse` input. -/
def envNoSaml : Env :=
  ⟨testCreds,
   [.ok (.jsonBody (mkSessionResp "SUCCESS" "tok1")),
    .ok (.htmlBody [("other", "x")])],
   fun _ _ => 0, fun _ => ""⟩

/-- C1: on the `MFA_REQUIRED` response whose sole factor's identifier
`"UNKNOWN CUSTOM"` is outside the supported set, `Authenticate` returns
immediately after the selection — the only request ever issued is the
initial credential POST — but it does NOT fail: `errors.Wrap` is applied to
the nil error of the successful body read (okta.go line 134), so the
function returns `("", nil)` instead of an "unsupported mfa provider"
error. -/
theorem unsupported_mfa_sole_factor_returns_nil_error :
    (authenticate envC).1 = Outcome.ret "" Option.none ∧
    (authenticate envC).2.events =
      [Event.req "POST" "https://example.okta.com/api/v1/authn"
        (ReqBody.authJson "user" "pw") []] :=
  ⟨rfl, rfl⟩

/-- C3: when the session-cookie-redirect HTML carries a hidden
`SAMLResponse` input its value is returned as the successful result
(scenario A); when the input is absent `Authenticate` stops — no retry, no
alternate path, no further request — but returns `("", nil)` rather than an
error, because `errors.Wrap` at okta.go line 410 wraps the nil error of the
successful goquery parse. -/
theorem samlResponse_extraction_and_nil_error_on_absence :
    (authenticate envA).1 = Outcome.ret "YXNzZXJ0aW9u" Option.none ∧
    (authenticate envNoSaml).1 = Outcome.ret "" Option.none ∧
    (authenticate envNoSaml).2.events =
      [Event.req "POST" "https://example.okta.com/api/v1/authn"
        (ReqBody.authJson "user" "pw") [],
       Event.req "GET" "https://example.okta.com/login/sessionCookieRedirect"
        ReqBody.noBody
        [("checkAccountSetupComplete", "true"), ("token", "tok1"),
         ("redirectUrl", "https://example.okta.com")]] :=
  ⟨rfl, rfl, rfl⟩

/-- C6: whenever the initial response's status is not `"MFA_REQUIRED"` the
engine enters no MFA branch — the whole trace is the credential POST
followed directly by the session-cookie-redirect GET whose `token` query
parameter is the response's `sessionToken` — and on scenario A (status
`"SUCCESS"`, then redirect HTML with the hidden input) the result is
`"YXNzZXJ0aW9u"`. -/
theorem non_mfa_status_skips_to_session_exchange :
    (∀ (ld : LoginDetails) (j : Json) (rest : List NetResult)
      (ch : String → List String → Nat) (pr : String → String),
      jString (gjsonGet j "status") ≠ "MFA_REQUIRED" →
      (authenticate ⟨ld, NetResult.ok (RespBody.jsonBody j) :: rest, ch, pr⟩
        ).2.events =
        [Event.req "POST" ("https://" ++ ld.Hostname ++ "/api/v1/authn")
          (ReqBody.authJson ld.Username ld.Password) [],
         Event.req "GET"
          ("https://" ++ ld.Hostname ++ "/login/sessionCookieRedirect")
          ReqBody.noBody
          [("checkAccountSetupComplete", "true"),
           ("token", jString (gjsonGet j "sessionToken")),
           ("redirectUrl", "https://" ++ ld.Hostname)]]) ∧
    (authenticate envA).1 = Outcome.ret "YXNzZXJ0aW9u" Option.none := by
  constructor
  · intro ld j rest ch pr h
    unfold authenticate clientDo emit
    simp only [respJson]
    rw [if_neg h]
    rw [sessionExchange_events]
    simp
  · rfl

/-- C6 witness: the general clause applied to the scenario-A response. -/
theorem non_mfa_status_skips_to_session_exchange_witness :
    (authenticate ⟨testCreds,
        NetResult.ok (RespBody.jsonBody (mkSessionResp "SUCCESS" "tok1")) ::
          [NetResult.ok (RespBody.htmlBody [("SAMLResponse", "YXNzZXJ0aW9u")])],
        fun _ _ => 0, fun _ => ""⟩).2.events =
      [Event.req "POST" "https://example.okta.com/api/v1/authn"
        (ReqBody.authJson "user" "pw") [],
       Event.req "GET" "https://example.okta.com/login/sessionCookieRedirect"
        ReqBody.noBody
        [("checkAccountSetupComplete", "true"), ("token", "tok1"),
         ("redirectUrl", "https://example.okta.com")]] := by
  have := non_mfa_status_skips_to_session_exchange.1 testCreds
    (mkSessionResp "SUCCESS" "tok1")
    [NetResult.ok (RespBody.htmlBody [("SAMLResponse", "YXNzZXJ0aW9u")])]
    (fun _ _ => 0) (fun _ => "") (by decide)
  simpa using this

/-- C9: for every factor whose computed identifier is the SMS identifier
`"OKTA SMS"` or the TOTP identifier `"GOOGLE TOKEN:SOFTWARE:TOTP"`, the
trace is exactly: credential POST; first verify POST carrying the state
token only; the interactive text prompt; second verify POST carrying
{state token, passcode}; then the redirect GET whose token is read from
the SECOND verify response `j2` — the first verify response body `r1` is
arbitrary and discarded. -/
theorem sms_totp_factor_two_verify_calls (ld : LoginDetails)
    (fid provider factorType stTok href : String) (r1 : RespBody) (j2 : Json)
    (ch : String → List String → Nat) (pr : String → String)
    (hid : provider ++ " " ++ goToUpper factorType = IdentifierSmsMfa ∨
      provider ++ " " ++ goToUpper factorType = IdentifierTotpMfa) :
    (authenticate ⟨ld,
      [NetResult.ok (RespBody.jsonBody
         (mkMfaResp stTok [mkFactor fid provider factorType href])),
       NetResult.ok r1,
       NetResult.ok (RespBody.jsonBody j2)], ch, pr⟩).2.events =
      [Event.req "POST" ("https://" ++ ld.Hostname ++ "/api/v1/authn")
        (ReqBody.authJson ld.Username ld.Password) [],
       Event.req "POST" href (ReqBody.verifyJson stTok Option.none) [],
       Event.promptEv "Enter verification code",
       Event.req "POST" href
        (ReqBody.verifyJson stTok (some (pr "Enter verification code"))) [],
       Event.req "GET"
        ("https://" ++ ld.Hostname ++ "/login/sessionCookieRedirect")
        ReqBody.noBody
        [("checkAccountSetupComplete", "true"),
         ("token", jString (gjsonGet j2 "sessionToken")),
         ("redirectUrl", "https://" ++ ld.Hostname)]] := by
  have hstep : authenticate ⟨ld,
      [NetResult.ok (RespBody.jsonBody
         (mkMfaResp stTok [mkFactor fid provider factorType href])),
       NetResult.ok r1,
       NetResult.ok (RespBody.jsonBody j2)], ch, pr⟩ =
    afterBranch ⟨ld,
      [NetResult.ok (RespBody.jsonBody
         (mkMfaResp stTok [mkFactor fid provider factorType href])),
       NetResult.ok r1,
       NetResult.ok (RespBody.jsonBody j2)], ch, pr⟩
      (mfaVerify ⟨ld,
        [NetResult.ok (RespBody.jsonBody
           (mkMfaResp stTok [mkFactor fid provider factorType href])),
         NetResult.ok r1,
         NetResult.ok (RespBody.jsonBody j2)], ch, pr⟩
        ⟨[NetResult.ok r1, NetResult.ok (RespBody.jsonBody j2)],
         [Event.req "POST" ("https://" ++ ld.Hostname ++ "/api/v1/authn")
           (ReqBody.authJson ld.Username ld.Password) []]⟩
        ld.Hostname stTok fid href
        (parseMfaIdentifer
          (mkMfaResp stTok [mkFactor fid provider factorType href]) 0)) :=
    rfl
  have hid2 : parseMfaIdentifer
      (mkMfaResp stTok [mkFactor fid provider factorType href]) 0 =
        IdentifierSmsMfa ∨
      parseMfaIdentifer
        (mkMfaResp stTok [mkFactor fid provider factorType href]) 0 =
        IdentifierTotpMfa := hid
  rw [hstep]
  rcases hid2 with h | h <;> rw [h] <;> rfl

/-- C9 witness: the theorem applied to a concrete SMS factor (provider
"OKTA", type "sms") and to a concrete TOTP factor (provider "GOOGLE",
type "token:software:totp"). -/
theorem sms_totp_factor_two_verify_calls_witness :
    (authenticate ⟨testCreds,
      [NetResult.ok (RespBody.jsonBody
         (mkMfaResp "st1" [mkFactor "f1" "OKTA" "sms" "https://x/verify"])),
       NetResult.ok (RespBody.jsonBody Json.null),
       NetResult.ok (RespBody.jsonBody (mkSessionResp "" "tok2"))],
      fun _ _ => 0, fun _ => "123456"⟩).2.events =
      [Event.req "POST" "https://example.okta.com/api/v1/authn"
        (ReqBody.authJson "user" "pw") [],
       Event.req "POST" "https://x/verify"
        (ReqBody.verifyJson "st1" Option.none) [],
       Event.promptEv "Enter verification code",
       Event.req "POST" "https://x/verify"
        (ReqBody.verifyJson "st1" (some "123456")) [],
       Event.req "GET" "https://example.okta.com/login/sessionCookieRedirect"
        ReqBody.noBody
        [("checkAccountSetupComplete", "true"), ("token", "tok2"),
         ("redirectUrl", "https://example.okta.com")]] ∧
    (authenticate ⟨testCreds,
      [NetResult.ok (RespBody.jsonBody
         (mkMfaResp "st9" [mkFactor "f9" "GOOGLE" "token:software:totp"
           "https://x/verify9"])),
       NetResult.ok (RespBody.jsonBody Json.null),
       NetResult.ok (RespBody.jsonBody (mkSessionResp "" "tok9"))],
      fun _ _ => 0, fun _ => "654321"⟩).2.events =
      [Event.req "POST" "https://example.okta.com/api/v1/authn"
        (ReqBody.authJson "user" "pw") [],
       Event.req "POST" "https://x/verify9"
        (ReqBody.verifyJson "st9" Option.none) [],
       Event.promptEv "Enter verification code",
       Event.req "POST" "https://x/verify9"
        (ReqBody.verifyJson "st9" (some "654321")) [],
       Event.req "GET" "https://example.okta.com/login/sessionCookieRedirect"
        ReqBody.noBody
        [("checkAccountSetupComplete", "true"), ("token", "tok9"),
         ("redirectUrl", "https://example.okta.com")]] := by
  constructor
  · have h := sms_totp_factor_two_verify_calls testCreds "f1" "OKTA" "sms"
      "st1" "https://x/verify" (RespBody.jsonBody Json.null)
      (mkSessionResp "" "tok2") (fun _ _ => 0) (fun _ => "123456")
      (Or.inl (by decide))
    simpa using h
  · have h := sms_totp_factor_two_verify_calls testCreds "f9" "GOOGLE"
      "token:software:totp" "st9" "https://x/verify9"
      (RespBody.jsonBody Json.null) (mkSessionResp "" "tok9")
      (fun _ _ => 0) (fun _ => "654321") (Or.inr (by decide))
    simpa using h

/-! ## Duo scenario environments -/

/-- A scripted Duo-web authentication attempt: MFA response with a sole DUO
factor, Duo verify response carrying `sig`, the auth-frame HTML with the
`sid` input, an OK `/frame/prompt` response, then the given `/frame/status`
responses followed by `tail` (callback / re-verify / redirect responses).
The chooser picks "Duo Push", so no passcode prompt occurs. -/
def duoEnv (sig : String) (statusScript tail : List NetResult) : Env :=
  ⟨testCreds,
   [.ok (.jsonBody (mkMfaResp "st1"
      [mkFactor "f1" "DUO" "web" "https://x/verify"])),
    .ok (.jsonBody (mkDuoVerifyResp "duo.example.com" sig
      "https://x/callback")),
    .ok (.htmlBody [("sid", "SID1")]),
    .ok (.jsonBody (mkPromptResp "OK" "txid1"))] ++ statusScript ++ tail,
   fun _ _ => 1, fun _ => ""⟩

/-- The constant browser-fingerprint form POSTed to `/frame/web/v1/auth`
(okta.go lines 192-199). -/
def duoFingerprintForm : List (String × String) :=
  [("parent", "https://example.okta.com/signin/verify/duo/web"),
   ("java_version", ""), ("java_version", ""), ("flash_version", ""),
   ("screen_resolution_width", "3008"),
   ("screen_resolution_height", "1692"), ("color_depth", "24")]

/-- Duo scripted run with results WAITING, WAITING, SUCCESS (cookies c1, c2,
c3) and a full tail: callback response, re-verify with session token,
redirect HTML. -/
def envDuoSuccess : Env :=
  duoEnv "AAA:BBB"
    [.ok (.jsonBody (mkStatusResp "WAITING" "c1" "s1")),
     .ok (.jsonBody (mkStatusResp "WAITING" "c2" "s2")),
     .ok (.jsonBody (mkStatusResp "SUCCESS" "c3" "s3"))]
    [.ok (.jsonBody .null),
     .ok (.jsonBody (mkSessionResp "" "tok3")),
     .ok (.htmlBody [("SAMLResponse", "ASSERT3")])]

/-- Duo scripted run with results WAITING then FAILURE. -/
def envDuoFail : Env :=
  duoEnv "AAA:BBB"
    [.ok (.jsonBody (mkStatusResp "WAITING" "c1" "s1")),
     .ok (.jsonBody (mkStatusResp "FAILURE" "c2" "s2"))]
    []

/-- C4: on the script [WAITING, WAITING, SUCCESS] the poll loop sleeps
exactly twice and the flow proceeds carrying the 3rd response's cookie `c3`
(visible in the callback's `sig_response`) to a successful assertion; on
[WAITING, FAILURE] the flow stops immediately after the 2nd response — its
trace ends at that response's status print, no further requests — but
returns `("", nil)` instead of a device-authentication error, because
okta.go line 330 wraps the nil error of the successful body read; and any
result other than SUCCESS / FAILURE makes the loop poll again. -/
theorem duo_poll_loop_scripts :
    ((authenticate envDuoSuccess).2.events.count Event.sleep = 2 ∧
     Event.req "POST" "https://x/callback"
       (ReqBody.form [("id", "f1"), ("stateToken", "st1"),
         ("sig_response", "c3:BBB")]) [] ∈
       (authenticate envDuoSuccess).2.events ∧
     (authenticate envDuoSuccess).1 =
       Outcome.ret "ASSERT3" Option.none) ∧
    ((authenticate envDuoFail).1 = Outcome.ret "" Option.none ∧
     (authenticate envDuoFail).2.events =
      [Event.req "POST" "https://example.okta.com/api/v1/authn"
        (ReqBody.authJson "user" "pw") [],
       Event.req "POST" "https://x/verify"
        (ReqBody.verifyJson "st1" Option.none) [],
       Event.req "POST" "https://duo.example.com/frame/web/v1/auth"
        (ReqBody.form duoFingerprintForm) [("tx", "AAA")],
       Event.chooseEv "Select a DUO MFA Option" ["Passcode", "Duo Push"],
       Event.req "POST" "https://duo.example.com/frame/prompt"
        (ReqBody.form [("sid", "SID1"), ("device", "phone1"),
          ("factor", "Duo Push"), ("out_of_date", "false")]) [],
       Event.req "POST" "https://duo.example.com/frame/status"
        (ReqBody.form [("sid", "SID1"), ("txid", "txid1")]) [],
       Event.printEv "s1",
       Event.sleep,
       Event.req "POST" "https://duo.example.com/frame/status"
        (ReqBody.form [("sid", "SID1"), ("txid", "txid1")]) [],
       Event.printEv "s2"]) ∧
    (∀ (url : String) (form : List (String × String)) (b : RespBody)
       (rest : List NetResult) (evs : List Event),
      jString (gjsonGet (respJson b) "response.result") ≠ "SUCCESS" →
      jString (gjsonGet (respJson b) "response.result") ≠ "FAILURE" →
      pollLoopGo url form (NetResult.ok b :: rest) evs =
        pollLoopGo url form rest (evs ++
          [Event.sleep, Event.req "POST" url (ReqBody.form form) [],
           Event.printEv (jString (gjsonGet (respJson b)
             "response.status"))])) := by
  refine ⟨⟨by decide, by decide, by decide⟩, ⟨by decide, by decide⟩, ?_⟩
  intro url form b rest evs hS hF
  conv_lhs => rw [pollLoopGo]
  simp only [if_neg hF, if_neg hS, List.append_assoc]
  rfl

/-- C4 witness: the continue-polling clause applied to a concrete WAITING
response. -/
theorem duo_poll_loop_scripts_witness :
    pollLoopGo "u" [("sid", "S")]
      [NetResult.ok (RespBody.jsonBody (mkStatusResp "WAITING" "c" "s"))]
      [] =
    pollLoopGo "u" [("sid", "S")] []
      [Event.sleep, Event.req "POST" "u" (ReqBody.form [("sid", "S")]) [],
       Event.printEv "s"] := by
  have := duo_poll_loop_scripts.2.2 "u" [("sid", "S")]
    (RespBody.jsonBody (mkStatusResp "WAITING" "c" "s")) [] []
    (by decide) (by decide)
  simpa using this

/-! ## Splitting lemmas (Duo signature, C10) -/

theorem splitChar_ne_nil (sep : Char) (l : List Char) :
    splitChar sep l ≠ [] := by
  cases l with
  | nil => simp [splitChar]
  | cons c cs =>
    simp only [splitChar]
    by_cases h : c = sep
    · simp [h]
    · simp only [if_neg h]
      cases hr : splitChar sep cs with
      | nil => simp
      | cons a t => simp

theorem splitChar_length_gt_one_iff (sep : Char) (l : List Char) :
    1 < (splitChar sep l).length ↔ sep ∈ l := by
  induction l with
  | nil => simp [splitChar]
  | cons c cs ih =>
    simp only [splitChar, List.mem_cons]
    by_cases h : c = sep
    · simp only [if_pos h]
      have := splitChar_ne_nil sep cs
      have hp : 0 < (splitChar sep cs).length := List.length_pos.mpr this
      simp only [List.length_cons]
      constructor
      · intro _
        left
        exact (h ▸ rfl)
      · intro _
        omega
    · simp only [if_neg h]
      cases hr : splitChar sep cs with
      | nil => exact absurd hr (splitChar_ne_nil sep cs)
      | cons a t =>
        rw [hr] at ih
        simp only [List.length_cons] at ih ⊢
        rw [ih]
        have hne : ¬ sep = c := fun hh => h hh.symm
        simp [hne]

/-- Duo run whose verify response carries a colon-free signature; the status
script immediately returns SUCCESS, so the flow reaches the callback
construction at okta.go line 343. -/
def envDuoNoColon : Env :=
  duoEnv "NOCOLON" [.ok (.jsonBody (mkStatusResp "SUCCESS" "c1" "s1"))] []

/-- C10 counterexample: the claim that both accesses into the colon-split
signature list are always within bounds is false: with the colon-free
signature `"NOCOLON"` the split has one element, and `Authenticate` panics
(index out of range) at the `duoSiguatres[1]` access of okta.go line 343. -/
theorem duo_signature_no_colon_panics :
    (authenticate envDuoNoColon).1 =
      Outcome.panicked "runtime error: index out of range" := rfl

/-- C10 amended: the split of the Duo signature on `":"` is never empty, so
the element-0 access (the `tx` parameter, okta.go line 206) is always in
bounds; the element-1 access (the application signature, okta.go line 343)
is in bounds exactly when the signature contains a colon — for colon-free
signatures the code panics. -/
theorem duo_signature_split_bounds (s : String) :
    0 < (goSplit s ':').length ∧
    (1 < (goSplit s ':').length ↔ ':' ∈ s.data) := by
  constructor
  · simp only [goSplit, List.length_map]
    exact List.length_pos.mpr (splitChar_ne_nil ':' s.data)
  · simp only [goSplit, List.length_map]
    exact splitChar_length_gt_one_iff ':' s.data

/-! ## The identifier mapping (C2) -/

/-- Modelled from the spec (§4.2, §8), for comparison only: "compute an
identifier = uppercase(`"<provider> <factorType>"`)" — the whole
concatenation upper-cased. -/
def specMfaIdentifier (provider factorType : String) : String :=
  goToUpper (provider ++ " " ++ factorType)

/-- C2 counterexample: for a factor with provider `"Duo"` and factor type
`"web"` the code computes `"Duo WEB"` — only the factor type is
upper-cased (okta.go line 417 reads the provider verbatim) — while the
spec's uppercase concatenation gives `"DUO WEB"`. -/
theorem parseMfaIdentifer_not_full_uppercase :
    parseMfaIdentifer (mkMfaResp "st" [mkFactor "f1" "Duo" "web" "u"]) 0 =
      "Duo WEB" ∧
    specMfaIdentifier "Duo" "web" = "DUO WEB" ∧
    parseMfaIdentifer (mkMfaResp "st" [mkFactor "f1" "Duo" "web" "u"]) 0 ≠
      specMfaIdentifier "Duo" "web" := by
  refine ⟨rfl, rfl, ?_⟩
  decide

/-- Label of factor `i` as computed by the option-list loop. -/
theorem mfaOptionsOf_getElem? (resp : Json) (i : Nat)
    (h : i < (jArray (gjsonGet resp "_embedded.factors")).length) :
    (mfaOptionsOf resp)[i]? =
      some (match lookupMfa (parseMfaIdentifer resp i) with
            | some val => val
            | Option.none => "UNSUPPORTED: " ++ parseMfaIdentifer resp i) := by
  simp [mfaOptionsOf, List.getElem?_map, List.getElem?_range, h]

/-- C2 amended: the identifier is pure and deterministic but equals
`provider ++ " " ++ uppercase(factorType)` — the provider is NOT
upper-cased; an identifier outside the supported table is rendered as
`"UNSUPPORTED: " ++ identifier`, and selecting such a (sole) factor makes
`Authenticate` return at the selection with no further request (with the
nil-wrapped error — see C1). -/
theorem mfa_identifier_mapping (id provider factorType href st : String)
    (rest : List Json) :
    parseMfaIdentifer
        (mkMfaResp st (mkFactor id provider factorType href :: rest)) 0 =
      provider ++ " " ++ goToUpper factorType ∧
    (lookupMfa (provider ++ " " ++ goToUpper factorType) = Option.none →
      (mfaOptionsOf
          (mkMfaResp st (mkFactor id provider factorType href :: rest)))[0]? =
        some ("UNSUPPORTED: " ++ (provider ++ " " ++ goToUpper factorType))) ∧
    (lookupMfa (provider ++ " " ++ goToUpper factorType) = Option.none →
      ∀ (ld : LoginDetails) (ch : String → List String → Nat)
        (pr : String → String),
      (authenticate ⟨ld,
        [NetResult.ok (RespBody.jsonBody
          (mkMfaResp st [mkFactor id provider factorType href]))],
        ch, pr⟩).2.events =
        [Event.req "POST" ("https://" ++ ld.Hostname ++ "/api/v1/authn")
          (ReqBody.authJson ld.Username ld.Password) []] ∧
      (authenticate ⟨ld,
        [NetResult.ok (RespBody.jsonBody
          (mkMfaResp st [mkFactor id provider factorType href]))],
        ch, pr⟩).1 = Outcome.ret "" Option.none) := by
  refine ⟨rfl, ?_, ?_⟩
  · intro h
    have h0 : (0 : Nat) < (jArray (gjsonGet
        (mkMfaResp st (mkFactor id provider factorType href :: rest))
        "_embedded.factors")).length := Nat.succ_pos _
    rw [mfaOptionsOf_getElem? _ 0 h0]
    have h2 : lookupMfa (parseMfaIdentifer
        (mkMfaResp st (mkFactor id provider factorType href :: rest)) 0) =
        Option.none := h
    rw [h2]
    rfl
  · intro h ld ch pr
    have h2 : lookupMfa (parseMfaIdentifer
        (mkMfaResp st [mkFactor id provider factorType href]) 0) =
        Option.none := h
    have hstep : authenticate ⟨ld,
        [NetResult.ok (RespBody.jsonBody
          (mkMfaResp st [mkFactor id provider factorType href]))],
        ch, pr⟩ =
      afterBranch ⟨ld,
        [NetResult.ok (RespBody.jsonBody
          (mkMfaResp st [mkFactor id provider factorType href]))],
        ch, pr⟩
        (mfaVerify ⟨ld,
          [NetResult.ok (RespBody.jsonBody
            (mkMfaResp st [mkFactor id provider factorType href]))],
          ch, pr⟩
          ⟨[], [Event.req "POST" ("https://" ++ ld.Hostname ++ "/api/v1/authn")
            (ReqBody.authJson ld.Username ld.Password) []]⟩
          ld.Hostname st id href
          (parseMfaIdentifer
            (mkMfaResp st [mkFactor id provider factorType href]) 0)) := rfl
    rw [hstep]
    unfold mfaVerify
    rw [h2]
    exact ⟨rfl, rfl⟩

/-! ## Duo signature handling (C5) -/

/-- Duo environment whose verify response carries the signature `sig` and
whose single `/frame/status` response is an immediate SUCCESS with poll
cookie `cookie`. -/
def duoEnvSig (sig cookie : String) : Env :=
  duoEnv sig [.ok (.jsonBody (mkStatusResp "SUCCESS" cookie "s1"))]
    [.ok (.jsonBody .null),
     .ok (.jsonBody (mkSessionResp "" "tok3")),
     .ok (.htmlBody [("SAMLResponse", "ASSERT3")])]

/-- Behaviour of the Duo branch on the scripted tape when the signature
splits into exactly `[sigA, sigB]`: the `tx` query parameter of the
auth-frame POST is `sigA`, and the callback's `sig_response` is
`cookie ++ ":" ++ sigB`. -/
theorem duoBranch_script (sig sigA sigB cookie : String)
    (hsig : goSplit sig ':' = [sigA, sigB]) :
    duoBranch (duoEnvSig sig cookie)
      ⟨[.ok (.htmlBody [("sid", "SID1")]),
        .ok (.jsonBody (mkPromptResp "OK" "txid1")),
        .ok (.jsonBody (mkStatusResp "SUCCESS" cookie "s1")),
        .ok (.jsonBody .null),
        .ok (.jsonBody (mkSessionResp "" "tok3")),
        .ok (.htmlBody [("SAMLResponse", "ASSERT3")])],
       [Event.req "POST" "https://example.okta.com/api/v1/authn"
         (ReqBody.authJson "user" "pw") [],
        Event.req "POST" "https://x/verify"
         (ReqBody.verifyJson "st1" Option.none) []]⟩
      (mkDuoVerifyResp "duo.example.com" sig "https://x/callback")
      "example.okta.com" "st1" "f1" "https://x/verify" =
    (BranchOut.next (mkSessionResp "" "tok3"),
     ⟨[.ok (.htmlBody [("SAMLResponse", "ASSERT3")])],
      [Event.req "POST" "https://example.okta.com/api/v1/authn"
        (ReqBody.authJson "user" "pw") [],
       Event.req "POST" "https://x/verify"
        (ReqBody.verifyJson "st1" Option.none) [],
       Event.req "POST" "https://duo.example.com/frame/web/v1/auth"
        (ReqBody.form duoFingerprintForm) [("tx", sigA)],
       Event.chooseEv "Select a DUO MFA Option" ["Passcode", "Duo Push"],
       Event.req "POST" "https://duo.example.com/frame/prompt"
        (ReqBody.form [("sid", "SID1"), ("device", "phone1"),
          ("factor", "Duo Push"), ("out_of_date", "false")]) [],
       Event.req "POST" "https://duo.example.com/frame/status"
        (ReqBody.form [("sid", "SID1"), ("txid", "txid1")]) [],
       Event.printEv "s1",
       Event.req "POST" "https://x/callback"
        (ReqBody.form [("id", "f1"), ("stateToken", "st1"),
          ("sig_response", cookie ++ ":" ++ sigB)]) [],
       Event.req "POST" "https://x/verify"
        (ReqBody.verifyJson "st1" Option.none) []]⟩) := by
  have h2 : goSplit (jString (gjsonGet
      (mkDuoVerifyResp "duo.example.com" sig "https://x/callback")
      "_embedded.factor._embedded.verification.signature")) ':' =
      [sigA, sigB] := hsig
  unfold duoBranch
  dsimp only
  rw [h2]
  rfl

/-- C5: whenever the Duo signature string splits on `":"` into
`[sigA, sigB]` (the form `"AAA:BBB"`), the auth-frame request carries
`tx = sigA` and the callback to the identity provider carries
`sig_response = cookie ++ ":" ++ sigB` — poll cookie first, application
signature second. -/
theorem duo_tx_and_sig_response (sig sigA sigB cookie : String)
    (hsig : goSplit sig ':' = [sigA, sigB]) :
    Event.req "POST" "https://duo.example.com/frame/web/v1/auth"
        (ReqBody.form duoFingerprintForm) [("tx", sigA)] ∈
      (authenticate (duoEnvSig sig cookie)).2.events ∧
    Event.req "POST" "https://x/callback"
        (ReqBody.form [("id", "f1"), ("stateToken", "st1"),
          ("sig_response", cookie ++ ":" ++ sigB)]) [] ∈
      (authenticate (duoEnvSig sig cookie)).2.events := by
  have hstep : authenticate (duoEnvSig sig cookie) =
      afterBranch (duoEnvSig sig cookie)
        (duoBranch (duoEnvSig sig cookie)
          ⟨[.ok (.htmlBody [("sid", "SID1")]),
            .ok (.jsonBody (mkPromptResp "OK" "txid1")),
            .ok (.jsonBody (mkStatusResp "SUCCESS" cookie "s1")),
            .ok (.jsonBody .null),
            .ok (.jsonBody (mkSessionResp "" "tok3")),
            .ok (.htmlBody [("SAMLResponse", "ASSERT3")])],
           [Event.req "POST" "https://example.okta.com/api/v1/authn"
             (ReqBody.authJson "user" "pw") [],
            Event.req "POST" "https://x/verify"
             (ReqBody.verifyJson "st1" Option.none) []]⟩
          (mkDuoVerifyResp "duo.example.com" sig "https://x/callback")
          "example.okta.com" "st1" "f1" "https://x/verify") := rfl
  rw [hstep, duoBranch_script sig sigA sigB cookie hsig]
  rw [show ∀ st4, afterBranch (duoEnvSig sig cookie)
        (BranchOut.next (mkSessionResp "" "tok3"), st4) =
      sessionExchange (duoEnvSig sig cookie) st4 (mkSessionResp "" "tok3")
    from fun _ => rfl]
  constructor <;> · rw [sessionExchange_events] ; simp

/-- C5 witness: the theorem applied to the literal signature `"AAA:BBB"`
and poll cookie `"c3"`. -/
theorem duo_tx_and_sig_response_witness :
    Event.req "POST" "https://duo.example.com/frame/web/v1/auth"
        (ReqBody.form duoFingerprintForm) [("tx", "AAA")] ∈
      (authenticate (duoEnvSig "AAA:BBB" "c3")).2.events ∧
    Event.req "POST" "https://x/callback"
        (ReqBody.form [("id", "f1"), ("stateToken", "st1"),
          ("sig_response", "c3:BBB")]) [] ∈
      (authenticate (duoEnvSig "AAA:BBB" "c3")).2.events := by
  have h := duo_tx_and_sig_response "AAA:BBB" "AAA" "BBB" "c3" (by decide)
  simpa using h

/-- C2 witness: the amended mapping theorem applied to the sole factor
(provider "UNKNOWN", factor type "custom"), whose identifier
"UNKNOWN CUSTOM" is outside the supported table. -/
theorem mfa_identifier_mapping_witness :
    parseMfaIdentifer
        (mkMfaResp "st1" [mkFactor "f1" "UNKNOWN" "custom" "https://x/verify"])
        0 = "UNKNOWN" ++ " " ++ goToUpper "custom" ∧
    (mfaOptionsOf (mkMfaResp "st1"
        [mkFactor "f1" "UNKNOWN" "custom" "https://x/verify"]))[0]? =
      some ("UNSUPPORTED: " ++ ("UNKNOWN" ++ " " ++ goToUpper "custom")) ∧
    (authenticate ⟨testCreds,
      [NetResult.ok (RespBody.jsonBody (mkMfaResp "st1"
        [mkFactor "f1" "UNKNOWN" "custom" "https://x/verify"]))],
      fun _ _ => 0, fun _ => ""⟩).1 = Outcome.ret "" Option.none := by
  have h := mfa_identifier_mapping "f1" "UNKNOWN" "custom" "https://x/verify"
    "st1" []
  exact ⟨h.1, h.2.1 (by decide),
    (h.2.2 (by decide) testCreds (fun _ _ => 0) (fun _ => "")).2⟩

/-! ## Trace invariants (C7, C8) -/

/-- The state token carried by a request event: the `stateToken` field of a
`VerifyRequest` body or of a posted form; other events carry none. -/
def eventStateToken : Event → Option String
  | .req _ _ (.verifyJson tok _) _ => some tok
  | .req _ _ (.form fields) _ => lookupField fields "stateToken"
  | _ => Option.none

/-- Any state token the event carries is `stTok`. -/
def TokOK (stTok : String) (e : Event) : Prop :=
  ∀ v, eventStateToken e = some v → v = stTok

/-- The event is not an invocation of the MFA factor chooser. -/
def NotFactorChoose (e : Event) : Prop :=
  ∀ opts, e ≠ Event.chooseEv "Select which MFA option to use" opts

/-- Shape of every event the engine emits after MFA factor selection. -/
def TailOK (stTok : String) (e : Event) : Prop :=
  TokOK stTok e ∧ NotFactorChoose e

/-- The JSON body of the first scripted response (the authentication
response), `null` when the first `Do` fails. -/
def firstRespJson (env : Env) : Json :=
  match env.responses with
  | NetResult.ok b :: _ => respJson b
  | _ => Json.null

/-- `st2` extends `st`: every old event is still there and every new event
satisfies `P`. -/
def Extends (P : Event → Prop) (st st2 : St) : Prop :=
  (∀ e ∈ st.events, e ∈ st2.events) ∧ (∀ e ∈ st2.events, e ∈ st.events ∨ P e)

theorem extends_refl (P : Event → Prop) (st : St) : Extends P st st :=
  ⟨fun _ he => he, fun _ he => Or.inl he⟩

theorem extends_trans {P : Event → Prop} {st st2 st3 : St}
    (h : Extends P st st2) (h2 : Extends P st2 st3) : Extends P st st3 := by
  refine ⟨fun e he => h2.1 e (h.1 e he), fun e he => ?_⟩
  rcases h2.2 e he with he2 | hp
  · exact h.2 e he2
  · exact Or.inr hp

theorem extends_mono {P Q : Event → Prop} (hPQ : ∀ e, P e → Q e)
    {st st2 : St} (h : Extends P st st2) : Extends Q st st2 := by
  refine ⟨h.1, fun e he => ?_⟩
  rcases h.2 e he with he2 | hp
  · exact Or.inl he2
  · exact Or.inr (hPQ e hp)

theorem extends_emit {P : Event → Prop} {st st2 : St} (h : Extends P st st2)
    {ev : Event} (hP : P ev) : Extends P st (emit st2 ev) := by
  refine extends_trans h ⟨fun e he => ?_, fun e he => ?_⟩
  · simp [emit]
    exact Or.inl he
  · simp [emit] at he
    rcases he with he | he
    · exact Or.inl he
    · subst he
      exact Or.inr hP

theorem extends_clientDo {P : Event → Prop} {st st2 : St}
    (h : Extends P st st2) {m u : String} {b : ReqBody}
    {q : List (String × String)} (hP : P (Event.req m u b q)) :
    Extends P st (clientDo st2 m u b q).1 := by
  refine extends_trans h ⟨fun e he => ?_, fun e he => ?_⟩
  · rw [clientDo_fst_events]
    simp
    exact Or.inl he
  · rw [clientDo_fst_events] at he
    simp at he
    rcases he with he | he
    · exact Or.inl he
    · subst he
      exact Or.inr hP

/-- Everything the poll loop appends is a sleep, the fixed status POST, or
a progress print. -/
theorem pollLoopGo_extends (P : Event → Prop) (url : String)
    (form : List (String × String)) (hsleep : P Event.sleep)
    (hreq : P (Event.req "POST" url (ReqBody.form form) []))
    (hprint : ∀ s, P (Event.printEv s)) :
    ∀ (tape : List NetResult) (evs : List Event),
      ∃ l, (pollLoopGo url form tape evs).2.events = evs ++ l ∧
        ∀ e ∈ l, P e := by
  intro tape
  induction tape with
  | nil =>
    intro evs
    refine ⟨[Event.sleep, Event.req "POST" url (ReqBody.form form) []],
      rfl, ?_⟩
    intro e he
    simp only [List.mem_cons, List.not_mem_nil, or_false] at he
    rcases he with rfl | rfl
    · exact hsleep
    · exact hreq
  | cons r rest ih =>
    intro evs
    cases r with
    | fail msg =>
      refine ⟨[Event.sleep, Event.req "POST" url (ReqBody.form form) []],
        rfl, ?_⟩
      intro e he
      simp only [List.mem_cons, List.not_mem_nil, or_false] at he
      rcases he with rfl | rfl
      · exact hsleep
      · exact hreq
    | ok b =>
      by_cases hF : jString (gjsonGet (respJson b) "response.result") =
          "FAILURE"
      · refine ⟨[Event.sleep, Event.req "POST" url (ReqBody.form form) [],
          Event.printEv (jString (gjsonGet (respJson b) "response.status"))],
          by simp [pollLoopGo, hF], ?_⟩
        intro e he
        simp only [List.mem_cons, List.not_mem_nil, or_false] at he
        rcases he with rfl | rfl | rfl
        · exact hsleep
        · exact hreq
        · exact hprint _
      · by_cases hS : jString (gjsonGet (respJson b) "response.result") =
            "SUCCESS"
        · refine ⟨[Event.sleep, Event.req "POST" url (ReqBody.form form) [],
            Event.printEv (jString (gjsonGet (respJson b)
              "response.status"))], by simp [pollLoopGo, hF, hS], ?_⟩
          intro e he
          simp only [List.mem_cons, List.not_mem_nil, or_false] at he
          rcases he with rfl | rfl | rfl
          · exact hsleep
          · exact hreq
          · exact hprint _
        · obtain ⟨l, hl, hlP⟩ := ih
            (evs ++ [Event.sleep,
              Event.req "POST" url (ReqBody.form form) [],
              Event.printEv (jString (gjsonGet (respJson b)
                "response.status"))])
          refine ⟨[Event.sleep, Event.req "POST" url (ReqBody.form form) [],
            Event.printEv (jString (gjsonGet (respJson b)
              "response.status"))] ++ l, ?_, ?_⟩
          · rw [show pollLoopGo url form (NetResult.ok b :: rest) evs =
                pollLoopGo url form rest (evs ++ [Event.sleep,
                  Event.req "POST" url (ReqBody.form form) [],
                  Event.printEv (jString (gjsonGet (respJson b)
                    "response.status"))]) by
                simp [pollLoopGo, hF, hS]]
            rw [hl]
            simp
          · intro e he
            simp only [List.mem_append, List.mem_cons, List.not_mem_nil,
              or_false] at he
            rcases he with (rfl | rfl | rfl) | he
            · exact hsleep
            · exact hreq
            · exact hprint _
            · exact hlP e he

theorem extends_pollLoop {P : Event → Prop} {st st2 : St}
    (h : Extends P st st2) {url : String} {form : List (String × String)}
    (hsleep : P Event.sleep)
    (hreq : P (Event.req "POST" url (ReqBody.form form) []))
    (hprint : ∀ s, P (Event.printEv s)) :
    Extends P st (pollLoop url form st2).2 := by
  obtain ⟨l, hl, hlP⟩ := pollLoopGo_extends P url form hsleep hreq hprint
    st2.tape st2.events
  refine extends_trans h ⟨fun e he => ?_, fun e he => ?_⟩
  · unfold pollLoop
    rw [hl]
    simp
    exact Or.inl he
  · unfold pollLoop at he
    rw [hl] at he
    simp at he
    rcases he with he | he
    · exact Or.inl he
    · exact Or.inr (hlP e he)

theorem tokOK_none {stTok : String} {e : Event}
    (h : eventStateToken e = Option.none) : TokOK stTok e := by
  intro v hv
  rw [h] at hv
  cases hv

theorem tailOK_sleep (stTok : String) : TailOK stTok Event.sleep :=
  ⟨tokOK_none rfl, fun _ h => Event.noConfusion h⟩

theorem tailOK_print (stTok s : String) : TailOK stTok (Event.printEv s) :=
  ⟨tokOK_none rfl, fun _ h => Event.noConfusion h⟩

theorem tailOK_prompt (stTok s : String) : TailOK stTok (Event.promptEv s) :=
  ⟨tokOK_none rfl, fun _ h => Event.noConfusion h⟩

theorem tailOK_choose_duo (stTok : String) (opts : List String) :
    TailOK stTok (Event.chooseEv "Select a DUO MFA Option" opts) := by
  refine ⟨tokOK_none rfl, ?_⟩
  intro o h
  injection h with h1 _
  exact absurd h1 (by decide)

theorem tailOK_req_verify (stTok m u : String) (pc : Option String)
    (q : List (String × String)) :
    TailOK stTok (Event.req m u (ReqBody.verifyJson stTok pc) q) := by
  refine ⟨?_, fun _ h => Event.noConfusion h⟩
  intro v hv
  have hv2 : some stTok = some v := hv
  injection hv2 with h
  exact h.symm

theorem tailOK_req_form (stTok m u : String)
    (fields : List (String × String)) (q : List (String × String))
    (h : lookupField fields "stateToken" = Option.none) :
    TailOK stTok (Event.req m u (ReqBody.form fields) q) := by
  refine ⟨?_, fun _ hh => Event.noConfusion hh⟩
  intro v hv
  have hv2 : lookupField fields "stateToken" = some v := hv
  rw [h] at hv2
  cases hv2

theorem tailOK_req_form_some (stTok m u : String)
    (fields : List (String × String)) (q : List (String × String))
    (h : lookupField fields "stateToken" = some stTok) :
    TailOK stTok (Event.req m u (ReqBody.form fields) q) := by
  refine ⟨?_, fun _ hh => Event.noConfusion hh⟩
  intro v hv
  have hv2 : lookupField fields "stateToken" = some v := hv
  rw [h] at hv2
  injection hv2 with hh
  exact hh.symm

theorem tailOK_req_noBody (stTok m u : String)
    (q : List (String × String)) :
    TailOK stTok (Event.req m u ReqBody.noBody q) :=
  ⟨tokOK_none rfl, fun _ h => Event.noConfusion h⟩

theorem tailOK_req_auth (stTok m u un pw : String)
    (q : List (String × String)) :
    TailOK stTok (Event.req m u (ReqBody.authJson un pw) q) :=
  ⟨tokOK_none rfl, fun _ h => Event.noConfusion h⟩

theorem extends_clientDo_of_eq {P : Event → Prop} {st st2 st3 : St}
    {m u : String} {b : ReqBody} {q : List (String × String)}
    {r : Except GoError RespBody} (h : clientDo st2 m u b q = (st3, r))
    (hext : Extends P st st2) (hP : P (Event.req m u b q)) :
    Extends P st st3 := by
  have hh := congrArg Prod.fst h
  dsimp at hh
  rw [← hh]
  exact extends_clientDo hext hP

theorem extends_pollLoop_of_eq {P : Event → Prop} {st st2 st3 : St}
    {url : String} {form : List (String × String)} {pr : PollResult}
    (h : pollLoop url form st2 = (pr, st3)) (hext : Extends P st st2)
    (hsleep : P Event.sleep)
    (hreq : P (Event.req "POST" url (ReqBody.form form) []))
    (hprint : ∀ s, P (Event.printEv s)) : Extends P st st3 := by
  have hh := congrArg Prod.snd h
  dsimp at hh
  rw [← hh]
  exact extends_pollLoop hext hsleep hreq hprint

set_option maxHeartbeats 1000000 in
/-- Every event appended by the Duo branch keeps the state-token
invariant and is not a factor-chooser invocation. -/
theorem duoBranch_extends (env : Env) (st : St) (resp : Json)
    (oktaOrgHost stateToken factorID oktaVerify : String) :
    Extends (TailOK stateToken) st
      (duoBranch env st resp oktaOrgHost stateToken factorID oktaVerify).2 := by
  unfold duoBranch
  dsimp only
  split
  next => exact extends_refl _ _
  next tx h0 =>
    split
    next st1 e1 h1 =>
      exact extends_clientDo_of_eq h1 (extends_refl _ _)
        (tailOK_req_form _ _ _ _ _ rfl)
    next st1 b1 h1 =>
      have hx1 : Extends (TailOK stateToken) st st1 :=
        extends_clientDo_of_eq h1 (extends_refl _ _)
          (tailOK_req_form _ _ _ _ _ rfl)
      split
      next => exact hx1
      next sidRaw h2 =>
        split
        next h3 => exact extends_emit hx1 (tailOK_choose_duo _ _)
        next factorChoice h3 =>
          have hxP : Extends (TailOK stateToken) st
              (if factorChoice = "Passcode" then
                (env.stringRequired "Enter passcode",
                 emit (emit st1 (Event.chooseEv "Select a DUO MFA Option"
                   ["Passcode", "Duo Push"]))
                   (Event.promptEv "Enter passcode"))
               else ("", emit st1 (Event.chooseEv "Select a DUO MFA Option"
                 ["Passcode", "Duo Push"]))).2 := by
            by_cases hfc : factorChoice = "Passcode"
            · simp only [if_pos hfc]
              exact extends_emit (extends_emit hx1 (tailOK_choose_duo _ _))
                (tailOK_prompt _ _)
            · simp only [if_neg hfc]
              exact extends_emit hx1 (tailOK_choose_duo _ _)
          have hform2 : ∀ tok : String, lookupField
              ([("sid", htmlUnescapeString sidRaw), ("device", "phone1"),
                ("factor", factorChoice), ("out_of_date", "false")] ++
               (if factorChoice = "Passcode" then [("passcode", tok)]
                else [])) "stateToken" = Option.none := by
            intro tok
            by_cases hfc : factorChoice = "Passcode"
            · simp only [if_pos hfc]
              rfl
            · simp only [if_neg hfc]
              rfl
          split
          next st4 e4 h4 =>
            exact extends_clientDo_of_eq h4 hxP
              (tailOK_req_form _ _ _ _ _ (hform2 _))
          next st4 b2 h4 =>
            have hx4 : Extends (TailOK stateToken) st st4 :=
              extends_clientDo_of_eq h4 hxP
                (tailOK_req_form _ _ _ _ _ (hform2 _))
            split
            next hstat => exact hx4
            next hstat =>
              split
              next st5 e5 h5 =>
                exact extends_clientDo_of_eq h5 hx4
                  (tailOK_req_form _ _ _ _ _ rfl)
              next st5 b3 h5 =>
                have hx5 : Extends (TailOK stateToken) st st5 :=
                  extends_clientDo_of_eq h5 hx4
                    (tailOK_req_form _ _ _ _ _ rfl)
                have hx6 : Extends (TailOK stateToken) st
                    (emit st5 (Event.printEv (jString (gjsonGet (respJson b3)
                      "response.status")))) :=
                  extends_emit hx5 (tailOK_print _ _)
                split
                next err st7 h6 =>
                  by_cases hres : jString (gjsonGet (respJson b3)
                      "response.result") ≠ "SUCCESS"
                  · rw [if_pos hres] at h6
                    exact extends_pollLoop_of_eq h6 hx6 (tailOK_sleep _)
                      (tailOK_req_form _ _ _ _ _ rfl)
                      (fun s => tailOK_print _ _)
                  · rw [if_neg hres] at h6
                    injection h6 with ha hb
                    exact PollResult.noConfusion ha
                next cookie st7 h6 =>
                  have hx7 : Extends (TailOK stateToken) st st7 := by
                    by_cases hres : jString (gjsonGet (respJson b3)
                        "response.result") ≠ "SUCCESS"
                    · rw [if_pos hres] at h6
                      exact extends_pollLoop_of_eq h6 hx6 (tailOK_sleep _)
                        (tailOK_req_form _ _ _ _ _ rfl)
                        (fun s => tailOK_print _ _)
                    · rw [if_neg hres] at h6
                      injection h6 with ha hb
                      rw [← hb]
                      exact hx6
                  split
                  next => exact hx7
                  next appSig h7 =>
                    split
                    next st8 e8 h8 =>
                      exact extends_clientDo_of_eq h8 hx7
                        (tailOK_req_form_some _ _ _ _ _ rfl)
                    next st8 b4 h8 =>
                      have hx8 : Extends (TailOK stateToken) st st8 :=
                        extends_clientDo_of_eq h8 hx7
                          (tailOK_req_form_some _ _ _ _ _ rfl)
                      split
                      next st9 e9 h9 =>
                        exact extends_clientDo_of_eq h9 hx8
                          (tailOK_req_verify _ _ _ _ _)
                      next st9 b5 h9 =>
                        exact extends_clientDo_of_eq h9 hx8
                          (tailOK_req_verify _ _ _ _ _)

theorem extends_of_append {P : Event → Prop} {st2 st3 : St}
    {l : List Event} (h : st3.events = st2.events ++ l)
    (hl : ∀ e ∈ l, P e) : Extends P st2 st3 := by
  refine ⟨fun e he => ?_, fun e he => ?_⟩
  · rw [h]
    exact List.mem_append_left _ he
  · rw [h] at he
    rcases List.mem_append.mp he with he | he
    · exact Or.inl he
    · exact Or.inr (hl e he)

theorem extends_sessionExchange {P : Event → Prop} {st st2 : St}
    {env : Env} {resp : Json} (h : Extends P st st2)
    (hP : P (Event.req "GET"
      ("https://" ++ env.loginDetails.Hostname ++
        "/login/sessionCookieRedirect") ReqBody.noBody
      [("checkAccountSetupComplete", "true"),
       ("token", jString (gjsonGet resp "sessionToken")),
       ("redirectUrl", "https://" ++ env.loginDetails.Hostname)])) :
    Extends P st (sessionExchange env st2 resp).2 := by
  refine extends_trans h (extends_of_append (sessionExchange_events env st2
    resp) ?_)
  intro e he
  simp only [List.mem_singleton] at he
  subst he
  exact hP

theorem extends_afterBranch {P : Event → Prop} {st : St} {env : Env}
    {bost : BranchOut × St} (h : Extends P st bost.2)
    (hP : ∀ resp, P (Event.req "GET"
      ("https://" ++ env.loginDetails.Hostname ++
        "/login/sessionCookieRedirect") ReqBody.noBody
      [("checkAccountSetupComplete", "true"),
       ("token", jString (gjsonGet resp "sessionToken")),
       ("redirectUrl", "https://" ++ env.loginDetails.Hostname)])) :
    Extends P st (afterBranch env bost).2 := by
  rcases bost with ⟨bo, st4⟩
  cases bo with
  | done o => exact h
  | next respF => exact extends_sessionExchange h (hP respF)

/-- Every event appended from the supported-set check onwards keeps the
state-token invariant and is not a factor-chooser invocation. -/
theorem mfaVerify_extends (env : Env) (st : St)
    (oktaOrgHost stateToken factorID oktaVerify mfaIdentifer : String) :
    Extends (TailOK stateToken) st
      (mfaVerify env st oktaOrgHost stateToken factorID oktaVerify
        mfaIdentifer).2 := by
  unfold mfaVerify
  split
  next => exact extends_refl _ _
  next v hv =>
    split
    next st3 e h1 =>
      exact extends_clientDo_of_eq h1 (extends_refl _ _)
        (tailOK_req_verify _ _ _ _ _)
    next st3 b2 h1 =>
      have hx3 : Extends (TailOK stateToken) st st3 :=
        extends_clientDo_of_eq h1 (extends_refl _ _)
          (tailOK_req_verify _ _ _ _ _)
      dsimp only
      split
      next hsms =>
        split
        next st4 e h2 =>
          exact extends_clientDo_of_eq h2
            (extends_emit hx3 (tailOK_prompt _ _))
            (tailOK_req_verify _ _ _ _ _)
        next st4 b3 h2 =>
          exact extends_clientDo_of_eq h2
            (extends_emit hx3 (tailOK_prompt _ _))
            (tailOK_req_verify _ _ _ _ _)
      next hsms =>
        split
        next hduo =>
          exact extends_trans hx3
            (duoBranch_extends env st3 (respJson b2) oktaOrgHost stateToken
              factorID oktaVerify)
        next hduo => exact hx3

/-- Master shape of the whole trace: every event satisfies the
post-selection shape, except possibly the single factor-chooser invocation,
which occurs (and with exactly the computed label list) only on an
MFA_REQUIRED response with more than one label; conversely it does occur
then. -/
theorem authenticate_master (env : Env) :
    (∀ e ∈ (authenticate env).2.events,
      TailOK (jString (gjsonGet (firstRespJson env) "stateToken")) e ∨
      (jString (gjsonGet (firstRespJson env) "status") = "MFA_REQUIRED" ∧
       1 < (mfaOptionsOf (firstRespJson env)).length ∧
       e = Event.chooseEv "Select which MFA option to use"
         (mfaOptionsOf (firstRespJson env)))) ∧
    (jString (gjsonGet (firstRespJson env) "status") = "MFA_REQUIRED" →
     1 < (mfaOptionsOf (firstRespJson env)).length →
     Event.chooseEv "Select which MFA option to use"
       (mfaOptionsOf (firstRespJson env)) ∈ (authenticate env).2.events) := by
  rcases env with ⟨ld, resps, ch, pr⟩
  rcases resps with _ | ⟨r, rest⟩
  · constructor
    · intro e he
      have he2 : e ∈ [Event.req "POST"
          ("https://" ++ ld.Hostname ++ "/api/v1/authn")
          (ReqBody.authJson ld.Username ld.Password) []] := he
      simp only [List.mem_singleton] at he2
      subst he2
      exact Or.inl (tailOK_req_auth _ _ _ _ _ _)
    · intro h
      have h2 : ("" : String) = "MFA_REQUIRED" := h
      exact absurd h2 (by decide)
  · cases r with
    | fail msg =>
      constructor
      · intro e he
        have he2 : e ∈ [Event.req "POST"
            ("https://" ++ ld.Hostname ++ "/api/v1/authn")
            (ReqBody.authJson ld.Username ld.Password) []] := he
        simp only [List.mem_singleton] at he2
        subst he2
        exact Or.inl (tailOK_req_auth _ _ _ _ _ _)
      · intro h
        have h2 : ("" : String) = "MFA_REQUIRED" := h
        exact absurd h2 (by decide)
    | ok b =>
      by_cases hmfa : jString (gjsonGet (respJson b) "status") =
          "MFA_REQUIRED"
      · by_cases hlen : (mfaOptionsOf (respJson b)).length > 1
        · constructor
          · intro e he
            unfold authenticate at he
            dsimp only [clientDo, emit] at he
            rw [if_pos hmfa, if_pos hlen] at he
            dsimp only at he
            rcases (extends_afterBranch
                (mfaVerify_extends _ _ _ _ _ _ _)
                (fun resp => tailOK_req_noBody _ _ _ _)).2 e he with
              he2 | hP
            · simp only [emit, List.nil_append, List.mem_append,
                List.mem_singleton, List.mem_cons, List.not_mem_nil,
                or_false] at he2
              rcases he2 with rfl | rfl
              · exact Or.inl (tailOK_req_auth _ _ _ _ _ _)
              · exact Or.inr ⟨hmfa, hlen, rfl⟩
            · exact Or.inl hP
          · intro _ _
            unfold authenticate
            dsimp only [clientDo, emit]
            rw [if_pos hmfa, if_pos hlen]
            dsimp only
            refine (extends_afterBranch
                (mfaVerify_extends _ _ _ _ _ _ _)
                (fun resp => tailOK_req_noBody _ _ _ _)).1 _ ?_
            simp [emit, firstRespJson]
        · constructor
          · intro e he
            unfold authenticate at he
            dsimp only [clientDo, emit] at he
            rw [if_pos hmfa, if_neg hlen] at he
            dsimp only at he
            rcases (extends_afterBranch
                (mfaVerify_extends _ _ _ _ _ _ _)
                (fun resp => tailOK_req_noBody _ _ _ _)).2 e he with
              he2 | hP
            · have he3 : e ∈ [Event.req "POST"
                  ("https://" ++ ld.Hostname ++ "/api/v1/authn")
                  (ReqBody.authJson ld.Username ld.Password) []] := he2
              simp only [List.mem_singleton] at he3
              subst he3
              exact Or.inl (tailOK_req_auth _ _ _ _ _ _)
            · exact Or.inl hP
          · intro _ hlen2
            exact absurd hlen2 hlen
      · constructor
        · intro e he
          unfold authenticate at he
          dsimp only [clientDo, emit] at he
          rw [if_neg hmfa] at he
          have hbase : Extends (TailOK (jString (gjsonGet (respJson b)
              "stateToken")))
              (⟨rest, [Event.req "POST"
                ("https://" ++ ld.Hostname ++ "/api/v1/authn")
                (ReqBody.authJson ld.Username ld.Password) []]⟩ : St)
              (⟨rest, [Event.req "POST"
                ("https://" ++ ld.Hostname ++ "/api/v1/authn")
                (ReqBody.authJson ld.Username ld.Password) []]⟩ : St) :=
            extends_refl _ _
          rcases (extends_sessionExchange hbase
              (tailOK_req_noBody _ _ _ _)).2 e he with he2 | hP
          · simp only [List.mem_singleton] at he2
            subst he2
            exact Or.inl (tailOK_req_auth _ _ _ _ _ _)
          · exact Or.inl hP
        · intro h
          exact absurd h hmfa

/-- C7: in every authentication attempt, every request that carries a state
token at all — the verify requests (`VerifyRequest.stateToken`), the Duo
completion callback and the final re-verify (form field / body
`stateToken`) — carries exactly the state token parsed from the initial
authentication response, unmodified. -/
theorem state_token_threaded_unmodified (env : Env) (e : Event)
    (he : e ∈ (authenticate env).2.events) (tok : String)
    (htok : eventStateToken e = some tok) :
    tok = jString (gjsonGet (firstRespJson env) "stateToken") := by
  rcases (authenticate_master env).1 e he with ⟨htk, _⟩ | ⟨_, _, heq⟩
  · exact htk tok htok
  · subst heq
    exact Option.noConfusion htok

/-- SMS scenario environment (spec scenario B). -/
def envB : Env :=
  ⟨testCreds,
   [.ok (.jsonBody (mkMfaResp "st1"
      [mkFactor "f1" "OKTA" "sms" "https://x/verify"])),
    .ok (.jsonBody .null),
    .ok (.jsonBody (mkSessionResp "" "tok2")),
    .ok (.htmlBody [("SAMLResponse", "ASSERT2")])],
   fun _ _ => 0, fun _ => "123456"⟩

/-- C7 witness: the second verify request of the SMS scenario carries the
parsed state token `"st1"`. -/
theorem state_token_threaded_unmodified_witness :
    "st1" = jString (gjsonGet (firstRespJson envB) "stateToken") :=
  state_token_threaded_unmodified envB
    (Event.req "POST" "https://x/verify"
      (ReqBody.verifyJson "st1" (some "123456")) [])
    (by decide) "st1" rfl

set_option maxHeartbeats 1000000 in
/-- C8: the factor chooser (prompt "Select which MFA option to use") is
invoked iff the factor list yields more than one label; its option list is
exactly the computed label list, whose length equals the factor count and
whose entry `i` is determined by factor `i`; and when there is at most one
label the flow proceeds with the factor at index 0 (id, verify URL and
identifier are read at index 0) with no chooser invocation. -/
theorem chooser_iff_multiple_factors (env : Env) (j : Json)
    (rest : List NetResult)
    (henv : env.responses = NetResult.ok (RespBody.jsonBody j) :: rest)
    (hmfa : jString (gjsonGet j "status") = "MFA_REQUIRED") :
    ((∃ opts, Event.chooseEv "Select which MFA option to use" opts ∈
        (authenticate env).2.events) ↔ 1 < (mfaOptionsOf j).length) ∧
    (∀ opts, Event.chooseEv "Select which MFA option to use" opts ∈
        (authenticate env).2.events → opts = mfaOptionsOf j) ∧
    (mfaOptionsOf j).length =
      (jArray (gjsonGet j "_embedded.factors")).length ∧
    (∀ i, i < (jArray (gjsonGet j "_embedded.factors")).length →
      (mfaOptionsOf j)[i]? =
        some (match lookupMfa (parseMfaIdentifer j i) with
              | some val => val
              | Option.none => "UNSUPPORTED: " ++ parseMfaIdentifer j i)) ∧
    ((mfaOptionsOf j).length ≤ 1 →
      authenticate env = afterBranch env (mfaVerify env
        ⟨rest, [Event.req "POST"
          ("https://" ++ env.loginDetails.Hostname ++ "/api/v1/authn")
          (ReqBody.authJson env.loginDetails.Username
            env.loginDetails.Password) []]⟩
        env.loginDetails.Hostname (jString (gjsonGet j "stateToken"))
        (jString (gjsonGet j
          ("_embedded.factors." ++ Nat.repr 0 ++ ".id")))
        (jString (gjsonGet j
          ("_embedded.factors." ++ Nat.repr 0 ++ "._links.verify.href")))
        (parseMfaIdentifer j 0))) := by
  have hfr : firstRespJson env = j := by
    unfold firstRespJson
    rw [henv]
    rfl
  refine ⟨⟨?_, ?_⟩, ?_, ?_, ?_, ?_⟩
  · rintro ⟨opts, hm⟩
    rcases (authenticate_master env).1 _ hm with ⟨_, hnfc⟩ | ⟨_, hlen, _⟩
    · exact absurd rfl (hnfc opts)
    · rw [hfr] at hlen
      exact hlen
  · intro hlen
    have h2 := (authenticate_master env).2 (by rw [hfr]; exact hmfa)
      (by rw [hfr]; exact hlen)
    rw [hfr] at h2
    exact ⟨_, h2⟩
  · intro opts hm
    rcases (authenticate_master env).1 _ hm with ⟨_, hnfc⟩ | ⟨_, _, heq⟩
    · exact absurd rfl (hnfc opts)
    · injection heq with _ h2
      rw [hfr] at h2
      exact h2
  · simp [mfaOptionsOf]
  · intro i hi
    exact mfaOptionsOf_getElem? j i hi
  · intro hlen
    rcases env with ⟨ld, resps, ch, pr⟩
    simp only at henv
    subst henv
    unfold authenticate
    dsimp only [clientDo, emit, respJson]
    rw [if_pos hmfa, if_neg (by omega : ¬ (mfaOptionsOf j).length > 1)]
    rfl

/-- Environment whose MFA response carries two factors (SMS then Duo). -/
def envTwo : Env :=
  ⟨testCreds,
   [.ok (.jsonBody (mkMfaResp "st1"
      [mkFactor "f1" "OKTA" "sms" "https://x/verify",
       mkFactor "f2" "DUO" "web" "https://x/verify2"]))],
   fun _ _ => 0, fun _ => ""⟩

/-- C8 witness: with two factors the chooser is invoked. -/
theorem chooser_iff_multiple_factors_witness :
    ∃ opts, Event.chooseEv "Select which MFA option to use" opts ∈
      (authenticate envTwo).2.events :=
  (chooser_iff_multiple_factors envTwo
    (mkMfaResp "st1"
      [mkFactor "f1" "OKTA" "sms" "https://x/verify",
       mkFactor "f2" "DUO" "web" "https://x/verify2"]) [] rfl
    (by decide)).1.mpr (by decide)
